import Mathlib

/-!
Verification of the accessibility tag-injection engine of the
PDF_Accessibility repository.

The definitions below are a shallow embedding of the second alt-text ECS
script (`generateAltText` / `modifyPDF` / `startProcess`): the script that
downloads the autotagged PDF, generates alt text for images and link
annotations through an external inference service, mutates the PDF object
graph, uploads the result, and applies a fallback default for images whose
generation produced no result.

Modelling conventions:
  * A PDF indirect object is modelled by the fields the script inspects or
    mutates: the `/S` structural role, `/Type`, `/Subtype`, the link URI
    resolved through the `/A` action, and the `/Alt` and `/Contents` text
    attributes.  `isDict` records whether the object is a `PDFDict`
    (the script skips all non-dictionary objects).
  * The external generation service is a parameter (`gen`, `genImg`):
    for links a function from the URL to `Except` (a rejected promise is
    `Except.error`), for images a function from the image reference to the
    parsed JSON response, a list of key/value pairs (a failed download,
    model call, or JSON parse is `Except.error`).
  * The JavaScript result object (`combinedResults` / `zipped`) is an
    association list with unique keys; `Object.entries` iteration is a fold
    over the entry list, `delete` is a filter, `hasOwnProperty` is
    `(getEntry m k).isSome`.  Entry order in the model is insertion order
    (a JS object orders integer-like keys numerically; no property proved
    here depends on entry order).
  * Storage I/O (S3 reads and the final upload) is modelled as succeeding;
    the failure source the claims are about is the generation service.
-/

/-- A PDF indirect object as seen by `modifyPDF`: the dictionary entries the
script reads (`/S`, `/Type`, `/Subtype`, the URI of the `/A` action) and the
ones it writes (`/S`, `/Alt`, `/Contents`).  `objNum` is
`pdfRef.objectNumber`. -/
structure PDFNode where
  isDict : Bool
  objNum : Nat
  structS : Option String
  typeK : Option String
  subtype : Option String
  uri : Option String
  alt : Option String
  contents : Option String
deriving DecidableEq

/-- The reserved sentinel value checked by `modifyPDF` (`value === 'artifact'`). -/
def artifactSentinel : String := "artifact"

/-- `structType === '/Figure'` on a `PDFDict`. -/
def isFigure (n : PDFNode) : Bool :=
  n.isDict && n.structS == some "/Figure"

/-- `pdfObject.has('Type') && Type == '/Annot' && Subtype == '/Link'` on a `PDFDict`. -/
def isLinkAnnot (n : PDFNode) : Bool :=
  n.isDict && n.typeK == some "/Annot" && n.subtype == some "/Link"

/-- One step of the `Object.entries(zipped).forEach` loop in the `/Figure`
branch of `modifyPDF`: `st` is the pair (node being mutated, live result
object), `kv` the snapshot entry.  On a key match, the artifact sentinel
rewrites the `/S` role; any other value is written to `/Alt` and
`/Contents` and the entry is deleted from the live object. -/
def figStep (o : Nat) (st : PDFNode × List (Nat × String)) (kv : Nat × String) :
    PDFNode × List (Nat × String) :=
  if kv.1 == o then
    if kv.2 == artifactSentinel then
      ({ st.1 with structS := some "/Artifact" }, st.2)
    else
      ({ st.1 with alt := some kv.2, contents := some kv.2 },
        st.2.filter (fun p => !(p.1 == kv.1)))
  else st

/-- The `/Figure` branch of `modifyPDF` for one node: iterate over a snapshot
of the result-object entries, mutating the node and deleting consumed
entries. -/
def applyFigure (zipped : List (Nat × String)) (n : PDFNode) :
    PDFNode × List (Nat × String) :=
  if isFigure n then zipped.foldl (figStep n.objNum) (n, zipped) else (n, zipped)

/-- The `/Link` annotation branch of `modifyPDF` for one node: when the node
is a link annotation with a URI, `generateAltTextForLink` is invoked; a
fulfilled promise writes `/Alt` and `/Contents`, a rejected one leaves the
node unchanged and makes the joined `Promise.all` reject (second component
`true`). -/
def applyLink (gen : String → Except String String) (n : PDFNode) :
    PDFNode × Bool :=
  if isLinkAnnot n then
    match n.uri with
    | some url =>
      match gen url with
      | Except.ok t => ({ n with alt := some t, contents := some t }, false)
      | Except.error _ => (n, true)
    | none => (n, false)
  else (n, false)

/-- The body of the `enumerateIndirectObjects().forEach` callback for one
object: the figure branch runs first, then the link branch on the same
(possibly updated) dictionary. -/
def processNode (gen : String → Except String String)
    (zipped : List (Nat × String)) (n : PDFNode) :
    PDFNode × List (Nat × String) × Bool :=
  ((applyLink gen (applyFigure zipped n).1).1,
   (applyFigure zipped n).2,
   (applyLink gen (applyFigure zipped n).1).2)

/-- The full traversal of `modifyPDF`: every indirect object in order, the
result object threaded through, and the disjunction of all link-generation
failures (whether `Promise.all` rejects). -/
def tagPass (gen : String → Except String String) :
    List PDFNode → List (Nat × String) → List PDFNode × List (Nat × String) × Bool
  | [], zipped => ([], zipped, false)
  | n :: rest, zipped =>
    ((processNode gen zipped n).1 ::
        (tagPass gen rest (processNode gen zipped n).2.1).1,
      (tagPass gen rest (processNode gen zipped n).2.1).2.1,
      (processNode gen zipped n).2.2 ||
        (tagPass gen rest (processNode gen zipped n).2.1).2.2)

/-- Local path of the downloaded source PDF
(`path.join('/tmp', path.basename(inputKey))` with
`inputKey = "output_autotag/COMPLIANT.pdf"`). -/
def downloadScratchFile : String := "/tmp/COMPLIANT.pdf"

/-- Local path of the serialized modified PDF
(`path.join('/tmp', 'modified_' + path.basename(inputKey))`). -/
def modifiedScratchFile : String := "/tmp/modified_COMPLIANT.pdf"

/-- Observable outcome of one `modifyPDF` call: the in-memory graph after the
traversal, the entries left in the result object, the document handed to
`PutObjectCommand` (if reached), the `/tmp` scratch files still on disk when
the function returns, and the distinct integrity warnings it emitted. -/
structure ModifyResult where
  graph : List PDFNode
  leftover : List (Nat × String)
  published : Option (List PDFNode)
  scratchLeft : List String
  warnings : List String
deriving DecidableEq

/-- `modifyPDF`.  When any link promise rejects, `await Promise.all` throws:
control jumps to the `catch`, which only logs, so `pdfDoc.save()`, the
upload, and both `unlinkSync` calls are skipped (the downloaded copy stays
in `/tmp`; the modified copy was never written).  On the success path the
document is uploaded and both scratch files are unlinked.  `warnings` is
always empty: `modifyPDF` has no code path that reports result-object
entries left unmatched — the `leftover` object is simply discarded when the
function returns. -/
def modifyPDF (gen : String → Except String String)
    (zipped : List (Nat × String)) (graph : List PDFNode) : ModifyResult :=
  if (tagPass gen graph zipped).2.2 then
    { graph := (tagPass gen graph zipped).1,
      leftover := (tagPass gen graph zipped).2.1,
      published := none,
      scratchLeft := [downloadScratchFile],
      warnings := [] }
  else
    { graph := (tagPass gen graph zipped).1,
      leftover := (tagPass gen graph zipped).2.1,
      published := some (tagPass gen graph zipped).1,
      scratchLeft := [],
      warnings := [] }

/-- One row of the `image_data` manifest as loaded by `startProcess`:
`objid`, the derived S3 image path, and the surrounding-text context. -/
structure ImageObject where
  id : Nat
  path : String
  context : String
deriving DecidableEq

/-- First-match association-list lookup: the value a JS property read
`m[k]` observes (keys are unique in every reachable state). -/
def getEntry (m : List (Nat × String)) (k : Nat) : Option String :=
  match m with
  | [] => none
  | (a, b) :: t =>
    match a == k with
    | true => some b
    | false => getEntry t k

/-- JS property assignment `m[k] = v`: overwrite the existing entry or
append a new one. -/
def setEntry (m : List (Nat × String)) (k : Nat) (v : String) :
    List (Nat × String) :=
  match m with
  | [] => [(k, v)]
  | (a, b) :: t =>
    match a == k with
    | true => (a, v) :: t
    | false => (a, b) :: setEntry t k v

/-- `Object.assign(combinedResults, JSON.parse(response))`: every key/value
pair of the parsed response is written into the accumulator, keyed by the
ids the response itself carries. -/
def assignAll (m : List (Nat × String)) (kvs : List (Nat × String)) :
    List (Nat × String) :=
  kvs.foldl (fun acc kv => setEntry acc kv.1 kv.2) m

/-- The body of the per-image loop of `startProcess`: the whole block
(download the payload, write the local copy, call `generateAltText`, parse
the JSON) sits in one `try`; any failure is logged and the loop continues
with the accumulator unchanged.  `fetchOk` tells whether the S3 download of
the payload succeeded (if not, generation is never attempted); `genImg` is
the generation-and-parse outcome. -/
def imageStep (fetchOk : ImageObject → Bool)
    (genImg : ImageObject → Except String (List (Nat × String)))
    (acc : List (Nat × String)) (img : ImageObject) : List (Nat × String) :=
  if fetchOk img then
    match genImg img with
    | Except.ok kvs => assignAll acc kvs
    | Except.error _ => acc
  else acc

/-- The generation loop of `startProcess`: `combinedResults` built left to
right over the manifest order. -/
def buildResults (fetchOk : ImageObject → Bool)
    (genImg : ImageObject → Except String (List (Nat × String)))
    (imgs : List ImageObject) : List (Nat × String) :=
  imgs.foldl (imageStep fetchOk genImg) []

/-- `let defaultText = "No text available"` in `startProcess`. -/
def defaultText : String := "No text available"

/-- One step of the fallback loop:
`if (!combinedResults.hasOwnProperty(imageObject.id)) { combinedResults[imageObject.id] = defaultText }`. -/
def fallbackStep (acc : List (Nat × String)) (img : ImageObject) :
    List (Nat × String) :=
  if (getEntry acc img.id).isSome then acc else acc ++ [(img.id, defaultText)]

/-- The fallback loop of `startProcess` over the manifest. -/
def applyFallback (imgs : List ImageObject) (m : List (Nat × String)) :
    List (Nat × String) :=
  imgs.foldl fallbackStep m

/-- Local name of the manifest database copy written by `startProcess`. -/
def dbScratchFile : String := "temp_images_data.db"

/-- Local scratch copy of an image payload, identified by the S3 path it was
fetched from (the source writes it under the path's final segment in the
working directory); `startProcess` never unlinks it. -/
def payloadFile (img : ImageObject) : String := img.path

/-- Observable outcome of one `startProcess` run. -/
structure RunResult where
  results : List (Nat × String)
  modify : ModifyResult
  scratchLeft : List String
deriving DecidableEq

/-- `startProcess` after the manifest database has been loaded: build
`combinedResults` over the manifest, apply the fallback default, call
`modifyPDF` with `combinedResults`, and report every local scratch file
still on disk at the end of the run (the db copy and the payload copies are
never unlinked anywhere in the script). -/
def startProcess (fetchOk : ImageObject → Bool)
    (genImg : ImageObject → Except String (List (Nat × String)))
    (genLink : String → Except String String)
    (imgs : List ImageObject) (graph : List PDFNode) : RunResult :=
  { results := applyFallback imgs (buildResults fetchOk genImg imgs)
  , modify := modifyPDF genLink (applyFallback imgs (buildResults fetchOk genImg imgs)) graph
  , scratchLeft :=
      dbScratchFile :: (imgs.filter fetchOk).map payloadFile ++
        (modifyPDF genLink (applyFallback imgs (buildResults fetchOk genImg imgs)) graph).scratchLeft }

/-- Whether the link branch of `processNode` fails on this node: a link
annotation with a URI whose generation call rejects. -/
def linkFails (gen : String → Except String String) (n : PDFNode) : Bool :=
  if isLinkAnnot n then
    match n.uri with
    | some u =>
      match gen u with
      | Except.ok _ => false
      | Except.error _ => true
    | none => false
  else false

/- Concrete inputs used by the witnesses and counterexamples. -/

/-- A placeholder node used as the default value of positional lookups. -/
def noNode : PDFNode :=
  { isDict := false, objNum := 0, structS := none, typeK := none,
    subtype := none, uri := none, alt := none, contents := none }

/-- A figure structure element with object number 5 and no other markers. -/
def figNode5 : PDFNode :=
  { isDict := true, objNum := 5, structS := some "/Figure", typeK := none,
    subtype := none, uri := none, alt := none, contents := none }

/-- A figure structure element with object number 7. -/
def figNode7 : PDFNode :=
  { isDict := true, objNum := 7, structS := some "/Figure", typeK := none,
    subtype := none, uri := none, alt := none, contents := none }

/-- A link annotation with a URL and no prior alt text. -/
def linkNode12 : PDFNode :=
  { isDict := true, objNum := 12, structS := none, typeK := some "/Annot",
    subtype := some "/Link", uri := some "https://example.org", alt := none,
    contents := none }

/-- A dictionary that is both a figure structure element and a link
annotation with a URL (the two branches of `modifyPDF` test independent
keys of the same dictionary). -/
def figLinkNode5 : PDFNode :=
  { isDict := true, objNum := 5, structS := some "/Figure",
    typeK := some "/Annot", subtype := some "/Link",
    uri := some "https://example.org", alt := none, contents := none }

/-- A link generator whose service call always fails. -/
def genLinkFail : String → Except String String :=
  fun _ => Except.error "Service error"

/-- A link generator that always answers with a fixed description. -/
def genLinkOk : String → Except String String :=
  fun _ => Except.ok "Link to example page"

/-- A link generator answering differently from `genLinkOk` (the external
service is nondeterministic across runs). -/
def genLinkOk2 : String → Except String String :=
  fun _ => Except.ok "Example page link"

/-- Manifest reference with id 5. -/
def img5 : ImageObject :=
  { id := 5, path := "temp/doc/output_autotag/images/doc.pdf_img5.png",
    context := "page context" }

/-- Manifest reference with id 9. -/
def img9 : ImageObject :=
  { id := 9, path := "temp/doc/output_autotag/images/doc.pdf_img9.png",
    context := "page context" }

/-- An image generator whose calls all fail. -/
def genImgFail : ImageObject → Except String (List (Nat × String)) :=
  fun _ => Except.error "Model error"

/-- An image generator that answers for id 5 with its manifest id. -/
def genImgOk5 : ImageObject → Except String (List (Nat × String)) :=
  fun img => Except.ok [(img.id, "A line chart of enrollment by year")]

/-- An image generator whose JSON response carries key 7 regardless of the
manifest id of the reference it was asked about. -/
def genImgKey7 : ImageObject → Except String (List (Nat × String)) :=
  fun _ => Except.ok [(7, "A campus photograph")]

/-- All payload downloads succeed. -/
def fetchAllOk : ImageObject → Bool := fun _ => true

/-! ### Helper lemmas about the matcher traversal -/

/-- `figStep` never changes the fields the link branch inspects. -/
theorem figStep_fields (o : Nat) (st : PDFNode × List (Nat × String))
    (kv : Nat × String) :
    (figStep o st kv).1.isDict = st.1.isDict ∧
    (figStep o st kv).1.objNum = st.1.objNum ∧
    (figStep o st kv).1.typeK = st.1.typeK ∧
    (figStep o st kv).1.subtype = st.1.subtype ∧
    (figStep o st kv).1.uri = st.1.uri := by
  unfold figStep
  split
  · split <;> exact ⟨rfl, rfl, rfl, rfl, rfl⟩
  · exact ⟨rfl, rfl, rfl, rfl, rfl⟩

/-- Folding `figStep` never changes the fields the link branch inspects. -/
theorem foldl_figStep_fields (o : Nat) :
    ∀ (l : List (Nat × String)) (st : PDFNode × List (Nat × String)),
      (l.foldl (figStep o) st).1.isDict = st.1.isDict ∧
      (l.foldl (figStep o) st).1.objNum = st.1.objNum ∧
      (l.foldl (figStep o) st).1.typeK = st.1.typeK ∧
      (l.foldl (figStep o) st).1.subtype = st.1.subtype ∧
      (l.foldl (figStep o) st).1.uri = st.1.uri
  | [], _ => ⟨rfl, rfl, rfl, rfl, rfl⟩
  | kv :: l, st => by
    have h1 := figStep_fields o st kv
    have h2 := foldl_figStep_fields o l (figStep o st kv)
    simp only [List.foldl_cons]
    exact ⟨h2.1.trans h1.1, h2.2.1.trans h1.2.1, h2.2.2.1.trans h1.2.2.1,
      h2.2.2.2.1.trans h1.2.2.2.1, h2.2.2.2.2.trans h1.2.2.2.2⟩

/-- The figure branch never changes the fields the link branch inspects. -/
theorem applyFigure_fields (z : List (Nat × String)) (n : PDFNode) :
    (applyFigure z n).1.isDict = n.isDict ∧
    (applyFigure z n).1.objNum = n.objNum ∧
    (applyFigure z n).1.typeK = n.typeK ∧
    (applyFigure z n).1.subtype = n.subtype ∧
    (applyFigure z n).1.uri = n.uri := by
  unfold applyFigure
  split
  · exact foldl_figStep_fields n.objNum z (n, z)
  · exact ⟨rfl, rfl, rfl, rfl, rfl⟩

/-- `linkFails` only depends on the annotation fields. -/
theorem linkFails_congr (gen : String → Except String String) (m n : PDFNode)
    (hd : m.isDict = n.isDict) (ht : m.typeK = n.typeK)
    (hs : m.subtype = n.subtype) (hu : m.uri = n.uri) :
    linkFails gen m = linkFails gen n := by
  unfold linkFails isLinkAnnot
  rw [hd, ht, hs, hu]

/-- The failure bit of the link branch is `linkFails`. -/
theorem applyLink_fail (gen : String → Except String String) (n : PDFNode) :
    (applyLink gen n).2 = linkFails gen n := by
  unfold applyLink linkFails
  cases hla : isLinkAnnot n
  · simp
  · simp only [if_true]
    cases n.uri with
    | none => simp
    | some u => cases hgu : gen u <;> simp [hgu]

/-- The failure bit of one node is `linkFails` of the original node. -/
theorem processNode_fail (gen : String → Except String String)
    (z : List (Nat × String)) (n : PDFNode) :
    (processNode gen z n).2.2 = linkFails gen n := by
  have hf := applyFigure_fields z n
  unfold processNode
  rw [applyLink_fail]
  exact linkFails_congr gen _ n hf.1 hf.2.2.1 hf.2.2.2.1 hf.2.2.2.2

/-- `Promise.all` rejects exactly when some node's link generation fails. -/
theorem tagPass_fail (gen : String → Except String String) :
    ∀ (g : List PDFNode) (z : List (Nat × String)),
      (tagPass gen g z).2.2 = g.any (linkFails gen)
  | [], _ => rfl
  | n :: g, z => by
    simp only [tagPass, List.any_cons]
    rw [processNode_fail, tagPass_fail gen g]

/-- The traversal preserves the number of indirect objects. -/
theorem tagPass_length (gen : String → Except String String) :
    ∀ (g : List PDFNode) (z : List (Nat × String)),
      (tagPass gen g z).1.length = g.length
  | [], _ => rfl
  | n :: g, z => by
    simp only [tagPass, List.length_cons]
    rw [tagPass_length gen g]

/-- An entry whose key differs from the node's object number does nothing. -/
theorem figStep_noMatch (o : Nat) (st : PDFNode × List (Nat × String))
    (kv : Nat × String) (h : (kv.1 == o) = false) : figStep o st kv = st := by
  unfold figStep
  simp [h]

/-- When no entry key matches, the whole figure fold does nothing. -/
theorem foldl_figStep_noMatch (o : Nat) :
    ∀ (l : List (Nat × String)) (st : PDFNode × List (Nat × String)),
      (∀ kv ∈ l, (kv.1 == o) = false) → l.foldl (figStep o) st = st
  | [], _, _ => rfl
  | kv :: l, st, h => by
    simp only [List.foldl_cons]
    rw [figStep_noMatch o st kv (h kv (List.mem_cons_self kv l))]
    exact foldl_figStep_noMatch o l st fun x hx => h x (List.mem_cons_of_mem kv hx)

/-- A node whose object number matches no result-object entry is untouched by
the figure branch, and the result object is unchanged. -/
theorem applyFigure_noMatch (z : List (Nat × String)) (n : PDFNode)
    (h : ∀ kv ∈ z, (kv.1 == n.objNum) = false) : applyFigure z n = (n, z) := by
  unfold applyFigure
  split
  · exact foldl_figStep_noMatch n.objNum z (n, z) h
  · rfl

/-- The figure branch with an empty result object does nothing. -/
theorem applyFigure_nil (n : PDFNode) : applyFigure [] n = (n, []) := by
  unfold applyFigure
  split <;> rfl

/-- A node that is not a link annotation is untouched by the link branch. -/
theorem applyLink_notLink (gen : String → Except String String) (n : PDFNode)
    (h : isLinkAnnot n = false) : applyLink gen n = (n, false) := by
  unfold applyLink
  simp [h]

/-- A link annotation without a URL is untouched by the link branch. -/
theorem applyLink_noUri (gen : String → Except String String) (n : PDFNode)
    (h : n.uri = none) : applyLink gen n = (n, false) := by
  unfold applyLink
  rw [h]
  split <;> rfl

/-- Each figure step only deletes entries, never adds them. -/
theorem figStep_zipped_subset (o : Nat) (st : PDFNode × List (Nat × String))
    (kv : Nat × String) : (figStep o st kv).2 ⊆ st.2 := by
  unfold figStep
  split
  · split
    · exact fun x hx => hx
    · exact fun x hx => List.mem_of_mem_filter hx
  · exact fun x hx => hx

/-- The figure fold only deletes entries, never adds them. -/
theorem foldl_figStep_subset (o : Nat) :
    ∀ (l : List (Nat × String)) (st : PDFNode × List (Nat × String)),
      (l.foldl (figStep o) st).2 ⊆ st.2
  | [], _ => fun _ hx => hx
  | kv :: l, st => by
    simp only [List.foldl_cons]
    exact fun x hx => figStep_zipped_subset o st kv (foldl_figStep_subset o l _ hx)

/-- The figure branch only deletes entries, never adds them. -/
theorem applyFigure_zipped_subset (z : List (Nat × String)) (n : PDFNode) :
    (applyFigure z n).2 ⊆ z := by
  unfold applyFigure
  split
  · exact foldl_figStep_subset n.objNum z (n, z)
  · exact fun _ hx => hx

/-- An entry whose key matches no processed node survives one figure step. -/
theorem figStep_keeps (o : Nat) (st : PDFNode × List (Nat × String))
    (kv : Nat × String) (p : Nat × String) (hp : p ∈ st.2)
    (hpo : (p.1 == o) = false) : p ∈ (figStep o st kv).2 := by
  unfold figStep
  cases hkv : (kv.1 == o) with
  | false => simpa [hkv] using hp
  | true =>
    have hko : kv.1 = o := by simpa using hkv
    cases hart : (kv.2 == artifactSentinel) with
    | true => simpa [hkv, hart] using hp
    | false =>
      have hne : (p.1 == kv.1) = false := by rw [hko]; exact hpo
      simp only [hkv, hart]
      simp [List.mem_filter, hp, hne]

/-- An entry whose key matches no processed node survives the figure fold. -/
theorem foldl_figStep_keeps (o : Nat) :
    ∀ (l : List (Nat × String)) (st : PDFNode × List (Nat × String))
      (p : Nat × String), p ∈ st.2 → (p.1 == o) = false →
      p ∈ (l.foldl (figStep o) st).2
  | [], _, _, hp, _ => hp
  | kv :: l, st, p, hp, hpo => by
    simp only [List.foldl_cons]
    exact foldl_figStep_keeps o l _ p (figStep_keeps o st kv p hp hpo) hpo

/-- An entry whose key differs from the node's object number survives the
figure branch. -/
theorem applyFigure_keeps (z : List (Nat × String)) (n : PDFNode)
    (p : Nat × String) (hp : p ∈ z) (hpo : (p.1 == n.objNum) = false) :
    p ∈ (applyFigure z n).2 := by
  unfold applyFigure
  split
  · exact foldl_figStep_keeps n.objNum z (n, z) p hp hpo
  · exact hp

/-- An entry whose key matches no node of the graph is still in the result
object after the whole traversal. -/
theorem tagPass_keeps (gen : String → Except String String) :
    ∀ (g : List PDFNode) (z : List (Nat × String)) (p : Nat × String),
      p ∈ z → (∀ n ∈ g, (p.1 == n.objNum) = false) →
      p ∈ (tagPass gen g z).2.1
  | [], _, _, hp, _ => hp
  | n :: g, z, p, hp, h => by
    simp only [tagPass]
    exact tagPass_keeps gen g _ p
      (applyFigure_keeps z n p hp (h n (List.mem_cons_self n g)))
      fun m hm => h m (List.mem_cons_of_mem n hm)

/-- With unique keys, the figure fold over a snapshot containing the entry
`(o, v)` performs exactly that entry's mutation: the artifact sentinel
rewrites the role and deletes nothing; any other value writes the text
attributes and deletes the entry from the live object. -/
theorem foldl_figStep_hit (o : Nat) (v : String) :
    ∀ (l : List (Nat × String)) (nd : PDFNode) (live : List (Nat × String)),
      (l.map Prod.fst).Nodup → (o, v) ∈ l →
      l.foldl (figStep o) (nd, live) =
        (if v == artifactSentinel then
          ({ nd with structS := some "/Artifact" }, live)
        else
          ({ nd with alt := some v, contents := some v },
            live.filter (fun p => !(p.1 == o))))
  | kv :: l, nd, live, hnd, hm => by
    simp only [List.map_cons, List.nodup_cons] at hnd
    rcases List.mem_cons.mp hm with heq | hmem
    · cases heq
      have hrest : ∀ x ∈ l, (x.1 == o) = false := by
        intro x hx
        cases hxo : (x.1 == o) with
        | false => rfl
        | true =>
          exfalso
          have : x.1 = o := by simpa using hxo
          exact hnd.1 (List.mem_map.mpr ⟨x, hx, this⟩)
      simp only [List.foldl_cons]
      have hstep : figStep o (nd, live) (o, v) =
          (if v == artifactSentinel then
            ({ nd with structS := some "/Artifact" }, live)
          else
            ({ nd with alt := some v, contents := some v },
              live.filter (fun p => !(p.1 == o)))) := by
        unfold figStep
        simp
      rw [hstep]
      split
      · exact foldl_figStep_noMatch o l _ hrest
      · exact foldl_figStep_noMatch o l _ hrest
    · have hkvo : (kv.1 == o) = false := by
        cases hkvo : (kv.1 == o) with
        | false => rfl
        | true =>
          exfalso
          have h1 : kv.1 = o := by simpa using hkvo
          exact hnd.1 (List.mem_map.mpr ⟨(o, v), hmem, h1.symm⟩)
      simp only [List.foldl_cons]
      rw [figStep_noMatch o (nd, live) kv hkvo]
      exact foldl_figStep_hit o v l nd live hnd.2 hmem

/-- With unique keys, the figure branch on a node whose object number has the
entry `(n.objNum, v)` either rewrites the role (artifact sentinel, entry
kept) or writes the text attributes and deletes the entry. -/
theorem applyFigure_hit (z : List (Nat × String)) (n : PDFNode) (v : String)
    (hnd : (z.map Prod.fst).Nodup) (hm : (n.objNum, v) ∈ z)
    (hfig : isFigure n = true) :
    applyFigure z n =
      (if v == artifactSentinel then
        ({ n with structS := some "/Artifact" }, z)
      else
        ({ n with alt := some v, contents := some v },
          z.filter (fun p => !(p.1 == n.objNum)))) := by
  unfold applyFigure
  simp only [hfig, if_true]
  exact foldl_figStep_hit n.objNum v z n z hnd hm

/-! ### Helper lemmas about the result object and the fallback loop -/

/-- A present entry is still found after appending. -/
theorem getEntry_append_some :
    ∀ (l₁ l₂ : List (Nat × String)) (k : Nat) (v : String),
      getEntry l₁ k = some v → getEntry (l₁ ++ l₂) k = some v
  | [], _, _, _, h => by simp [getEntry] at h
  | (a, b) :: t, l₂, k, v, h => by
    unfold getEntry at h ⊢
    cases hak : (a == k) with
    | true => rw [hak] at h; rw [List.cons_append]; simpa [getEntry, hak] using h
    | false =>
      rw [hak] at h
      rw [List.cons_append]
      simp only [getEntry, hak]
      exact getEntry_append_some t l₂ k v h

/-- A missing key defers the lookup to the appended tail. -/
theorem getEntry_append_none :
    ∀ (l₁ l₂ : List (Nat × String)) (k : Nat),
      getEntry l₁ k = none → getEntry (l₁ ++ l₂) k = getEntry l₂ k
  | [], _, _, _ => rfl
  | (a, b) :: t, l₂, k, h => by
    unfold getEntry at h
    cases hak : (a == k) with
    | true => rw [hak] at h; exact absurd h (by simp)
    | false =>
      rw [hak] at h
      rw [List.cons_append]
      simp only [getEntry, hak]
      exact getEntry_append_none t l₂ k h

/-- The fallback loop never changes an entry that is already present. -/
theorem fallback_preserves :
    ∀ (l : List ImageObject) (m : List (Nat × String)) (k : Nat) (v : String),
      getEntry m k = some v → getEntry (l.foldl fallbackStep m) k = some v
  | [], _, _, _, h => h
  | img :: l, m, k, v, h => by
    simp only [List.foldl_cons]
    apply fallback_preserves l
    unfold fallbackStep
    split
    · exact h
    · exact getEntry_append_some m _ k v h

/-- Anything a fallback step finds was already there, or is the default text
freshly written under the reference's own id. -/
theorem fallbackStep_cases (m : List (Nat × String)) (img : ImageObject)
    (k : Nat) (v : String) (h : getEntry (fallbackStep m img) k = some v) :
    getEntry m k = some v ∨ (k = img.id ∧ v = defaultText) := by
  unfold fallbackStep at h
  split at h
  · exact Or.inl h
  · cases hm : getEntry m k with
    | some w =>
      rw [getEntry_append_some m _ k w hm] at h
      exact Or.inl h
    | none =>
      rw [getEntry_append_none m _ k hm] at h
      unfold getEntry at h
      cases hik : (img.id == k) with
      | true =>
        rw [hik] at h
        injection h with h
        have : img.id = k := by simpa using hik
        exact Or.inr ⟨this.symm, h.symm⟩
      | false => rw [hik] at h; simp [getEntry] at h

/-- A manifest reference whose id is absent from the result object receives
the default text by the end of the fallback loop. -/
theorem fallback_default :
    ∀ (l : List ImageObject) (m : List (Nat × String)) (img : ImageObject),
      img ∈ l → getEntry m img.id = none →
      getEntry (l.foldl fallbackStep m) img.id = some defaultText
  | hd :: l, m, img, hmem, hnone => by
    simp only [List.foldl_cons]
    rcases List.mem_cons.mp hmem with heq | hmem'
    · rw [← heq]
      have hstep : getEntry (fallbackStep m img) img.id = some defaultText := by
        unfold fallbackStep
        rw [hnone]
        simp only [Option.isSome_none, Bool.false_eq_true, if_false]
        rw [getEntry_append_none m _ img.id hnone]
        simp [getEntry]
      exact fallback_preserves l _ img.id defaultText hstep
    · cases hstep : getEntry (fallbackStep m hd) img.id with
      | none => exact fallback_default l _ img hmem' hstep
      | some v =>
        rcases fallbackStep_cases m hd img.id v hstep with hold | ⟨hk, hv⟩
        · rw [hold] at hnone; exact absurd hnone (by simp)
        · rw [hv] at hstep
          exact fallback_preserves l _ img.id defaultText hstep

/-- A node matching no live entry and not a link annotation passes through
`processNode` unchanged, with the result object and failure bit untouched. -/
theorem processNode_noMatch_notLink (gen : String → Except String String)
    (z : List (Nat × String)) (n : PDFNode)
    (hz : ∀ kv ∈ z, (kv.1 == n.objNum) = false)
    (hl : isLinkAnnot n = false) :
    processNode gen z n = (n, z, false) := by
  simp [processNode, applyFigure_noMatch z n hz, applyLink_notLink gen n hl]

/-- With an empty result object, a node that is not a URL-carrying link
annotation passes through `processNode` unchanged. -/
theorem processNode_nil_id (gen : String → Except String String) (n : PDFNode)
    (h : isLinkAnnot n = false ∨ n.uri = none) :
    processNode gen [] n = (n, [], false) := by
  rcases h with hl | hu
  · simp [processNode, applyFigure_nil n, applyLink_notLink gen n hl]
  · simp [processNode, applyFigure_nil n, applyLink_noUri gen n hu]

/-- With an empty result map, the traversal is the identity on any graph
without URL-carrying link annotations. -/
theorem tagPass_nil_map (gen : String → Except String String) :
    ∀ (g : List PDFNode),
      (∀ n ∈ g, isLinkAnnot n = false ∨ n.uri = none) →
      tagPass gen g [] = (g, [], false)
  | [], _ => rfl
  | n :: g, h => by
    have h1 := processNode_nil_id gen n (h n (List.mem_cons_self n g))
    have h2 := tagPass_nil_map gen g fun m hm => h m (List.mem_cons_of_mem n hm)
    simp [tagPass, h1, h2]

/-- Positional form of the untouched-node invariant: the node at position `i`
is unchanged by the traversal when its object number matches no entry of the
result map and it is not a link annotation. -/
theorem tagPass_getD_untouched (gen : String → Except String String) :
    ∀ (g : List PDFNode) (z : List (Nat × String)) (i : Nat), i < g.length →
      (∀ kv ∈ z, (kv.1 == (g.getD i noNode).objNum) = false) →
      isLinkAnnot (g.getD i noNode) = false →
      (tagPass gen g z).1.getD i noNode = g.getD i noNode
  | [], _, i, hi, _, _ => by simp at hi
  | n :: g, z, 0, _, hz, hl => by
    have h1 := processNode_noMatch_notLink gen z n (by simpa using hz)
      (by simpa using hl)
    simp [tagPass, h1]
  | n :: g, z, i + 1, hi, hz, hl => by
    simp only [List.getD_cons_succ] at hz hl ⊢
    have hsub := applyFigure_zipped_subset z n
    simp only [tagPass, List.getD_cons_succ]
    exact tagPass_getD_untouched gen g _ i (Nat.lt_of_succ_lt_succ hi)
      (fun kv hkv => hz kv (hsub hkv)) hl

/-! ### Claim theorems -/

/-- C1: if generating the description for any one link annotation fails, the
whole operation is fatal to the entire document — `Promise.all` rejects
before `pdfDoc.save()` and the upload, so no mutated document is published
and no partial persistence of any mutation occurs. -/
theorem linkFailure_publishes_nothing
    (gen : String → Except String String)
    (zipped : List (Nat × String)) (graph : List PDFNode) (n : PDFNode)
    (hn : n ∈ graph) (hl : isLinkAnnot n = true) (u : String)
    (hu : n.uri = some u) (e : String) (he : gen u = Except.error e) :
    (modifyPDF gen zipped graph).published = none := by
  have hf : linkFails gen n = true := by
    unfold linkFails
    rw [hl, hu]
    simp [he]
  have hany : graph.any (linkFails gen) = true :=
    List.any_eq_true.mpr ⟨n, hn, hf⟩
  unfold modifyPDF
  rw [tagPass_fail gen graph zipped, hany]
  simp

/-- Witness for C1: a single link annotation whose generation call rejects;
the run publishes nothing. -/
theorem linkFailure_publishes_nothing_witness :
    (modifyPDF genLinkFail [] [linkNode12]).published = none :=
  linkFailure_publishes_nothing genLinkFail [] [linkNode12] linkNode12
    (by decide) (by decide) "https://example.org" (by decide) "Service error"
    rfl

/-- C2: after generation completes, a manifest reference with no result-map
entry at all receives the fixed non-empty default text, while an entry that
is the explicit empty string is left unchanged — so a missing result and an
empty result never yield the same stored value. -/
theorem fallback_missing_vs_empty
    (imgs : List ImageObject) (m : List (Nat × String)) (img : ImageObject)
    (hmem : img ∈ imgs) :
    (getEntry m img.id = none →
      getEntry (applyFallback imgs m) img.id = some defaultText) ∧
    (getEntry m img.id = some "" →
      getEntry (applyFallback imgs m) img.id = some "") ∧
    defaultText ≠ "" := by
  unfold applyFallback
  refine ⟨?_, ?_, by decide⟩
  · intro h
    exact fallback_default imgs m img hmem h
  · intro h
    exact fallback_preserves imgs m img.id "" h

/-- Witness for C2: id 9 has no entry and receives the default text; id 5 has
the explicit empty entry and keeps it. -/
theorem fallback_missing_vs_empty_witness :
    getEntry (applyFallback [img5, img9] [(5, "")]) 9 = some defaultText ∧
    getEntry (applyFallback [img5, img9] [(5, "")]) 5 = some "" :=
  ⟨(fallback_missing_vs_empty [img5, img9] [(5, "")] img9 (by decide)).1
      (by decide),
   (fallback_missing_vs_empty [img5, img9] [(5, "")] img5 (by decide)).2.1
      (by decide)⟩

/-- C3 counterexample: a dictionary that is both a figure structure element
and a URL-carrying link annotation, with the artifact entry for its object
number: the figure branch rewrites the role to the non-content role, yet the
link branch still attaches descriptive text to the very same node — so the
claim that no descriptive text attribute is attached fails. -/
theorem artifact_node_still_gets_link_text :
    (tagPass genLinkOk [figLinkNode5] [(5, "artifact")]).1 =
      [{ figLinkNode5 with
          structS := some "/Artifact",
          alt := some "Link to example page",
          contents := some "Link to example page" }] := by decide

/-- C3 amended: for every figure node whose object number matches an
artifact-sentinel entry (unique keys), the matcher rewrites the role marker
to the non-content role and — unless the node is additionally a link
annotation with a URL — attaches no descriptive text attribute: the node is
unchanged except for the role, and the result object is untouched. -/
theorem artifact_reclassifies_without_text
    (gen : String → Except String String) (z : List (Nat × String))
    (n : PDFNode) (hnd : (z.map Prod.fst).Nodup)
    (hm : (n.objNum, artifactSentinel) ∈ z) (hfig : isFigure n = true)
    (hnl : (isLinkAnnot n && n.uri.isSome) = false) :
    processNode gen z n = ({ n with structS := some "/Artifact" }, z, false) := by
  have haf : applyFigure z n = ({ n with structS := some "/Artifact" }, z) := by
    rw [applyFigure_hit z n artifactSentinel hnd hm hfig]
    simp
  have hlink : applyLink gen { n with structS := some "/Artifact" } =
      ({ n with structS := some "/Artifact" }, false) := by
    cases hla : isLinkAnnot n with
    | false => exact applyLink_notLink gen _ hla
    | true =>
      cases hu : n.uri with
      | none => exact applyLink_noUri gen _ rfl
      | some u => rw [hla, hu] at hnl; simp at hnl
  simp [processNode, haf, hlink]

/-- Witness for C3 amended: figure node 5 with the artifact entry gets the
non-content role and nothing else changes. -/
theorem artifact_reclassifies_without_text_witness :
    processNode genLinkOk [(5, "artifact")] figNode5 =
      ({ figNode5 with structS := some "/Artifact" }, [(5, "artifact")], false) :=
  artifact_reclassifies_without_text genLinkOk [(5, "artifact")] figNode5
    (by decide) (by decide) (by decide) (by decide)

/-- C4 counterexample: the artifact entry for object 5 is successfully
applied (the node's role marker is rewritten) and yet the entry is not
removed from the result map — after tagging the map retains an entry that
was matched to a graph node, refuting the claim. -/
theorem applied_artifact_entry_retained :
    (tagPass genLinkOk [figNode5] [(5, "artifact")]).1 =
      [{ figNode5 with structS := some "/Artifact" }] ∧
    (tagPass genLinkOk [figNode5] [(5, "artifact")]).2.1 = [(5, "artifact")] :=
  ⟨by decide, by decide⟩

/-- C4 amended: with unique keys, a result-map entry applied to a matching
figure node as descriptive text is removed from the map at that application;
an applied artifact-sentinel entry is retained — so after tagging the map
keeps the never-matched entries plus the matched artifact entries. -/
theorem text_entry_removed_artifact_kept
    (z : List (Nat × String)) (n : PDFNode) (v : String)
    (hnd : (z.map Prod.fst).Nodup) (hm : (n.objNum, v) ∈ z)
    (hfig : isFigure n = true) :
    (v = artifactSentinel → (applyFigure z n).2 = z) ∧
    (v ≠ artifactSentinel →
      (applyFigure z n).1.alt = some v ∧
      (applyFigure z n).1.contents = some v ∧
      ∀ w : String, (n.objNum, w) ∉ (applyFigure z n).2) := by
  have hit := applyFigure_hit z n v hnd hm hfig
  constructor
  · intro hv
    rw [hit]
    simp [hv]
  · intro hv
    have hbe : (v == artifactSentinel) = false := by
      cases hbe : (v == artifactSentinel) with
      | false => rfl
      | true => exact absurd (by simpa using hbe) hv
    rw [hit]
    simp [hbe, List.mem_filter]

/-- Witness for C4 amended: the text entry for object 5 is written to the
node and removed from the map. -/
theorem text_entry_removed_artifact_kept_witness :
    (applyFigure [(5, "A line chart")] figNode5).1.alt = some "A line chart" ∧
    (5, "A line chart") ∉ (applyFigure [(5, "A line chart")] figNode5).2 := by
  have h := (text_entry_removed_artifact_kept [(5, "A line chart")] figNode5
    "A line chart" (by decide) (by decide) (by decide)).2 (by decide)
  exact ⟨h.1, h.2.2 "A line chart"⟩

/-- C5 counterexample: running the matcher a second time (empty result map)
on the graph produced by a first pass over one link annotation changes the
graph again — the link branch re-invokes generation and rewrites the text
attributes, and the external service does not return the same text across
runs. -/
theorem second_pass_rewrites_links :
    (tagPass genLinkOk2 (tagPass genLinkOk [linkNode12] []).1 []).1 ≠
      (tagPass genLinkOk [linkNode12] []).1 := by decide

/-- C5 amended: a second matcher pass given an empty result map leaves every
node that is not a URL-carrying link annotation unchanged (in particular all
figure nodes, tagged or not); URL-carrying link annotations are re-processed
and rewritten on every pass. -/
theorem second_pass_identity_without_links
    (gen : String → Except String String) (g : List PDFNode)
    (h : ∀ n ∈ g, isLinkAnnot n = false ∨ n.uri = none) :
    tagPass gen g [] = (g, [], false) :=
  tagPass_nil_map gen g h

/-- Witness for C5 amended: a second pass over an already-tagged figure node
with an empty map changes nothing. -/
theorem second_pass_identity_without_links_witness :
    tagPass genLinkOk [{ figNode5 with alt := some "text", contents := some "text" }] [] =
      ([{ figNode5 with alt := some "text", contents := some "text" }], [], false) :=
  second_pass_identity_without_links genLinkOk
    [{ figNode5 with alt := some "text", contents := some "text" }] (by decide)

/-- C6: a graph node whose object number matches no entry in the result map
and which is not a link annotation is left unmodified at its position by the
traversal, so its serialized content in the output document is unchanged. -/
theorem unmatched_non_link_untouched
    (gen : String → Except String String) (g : List PDFNode)
    (z : List (Nat × String)) (i : Nat) (hi : i < g.length)
    (hz : ∀ kv ∈ z, (kv.1 == (g.getD i noNode).objNum) = false)
    (hl : isLinkAnnot (g.getD i noNode) = false) :
    (tagPass gen g z).1.getD i noNode = g.getD i noNode :=
  tagPass_getD_untouched gen g z i hi hz hl

/-- Witness for C6: a figure node with no matching entry is untouched. -/
theorem unmatched_non_link_untouched_witness :
    (tagPass genLinkOk [figNode7] [(42, "desc")]).1.getD 0 noNode = figNode7 :=
  unmatched_non_link_untouched genLinkOk [figNode7] [(42, "desc")] 0
    (by decide) (by decide) (by decide)

/-- C7: a failure while generating one image's description is non-fatal —
the loop logs and proceeds, building exactly the result map it would have
built without the failed reference (so the remaining references are all
processed), the failed reference contributes no entry, and if nothing else
supplied its id the fallback resolver later assigns it the default text. -/
theorem image_failure_nonfatal
    (fetchOk : ImageObject → Bool)
    (genImg : ImageObject → Except String (List (Nat × String)))
    (pre post : List ImageObject) (img : ImageObject)
    (hfail : fetchOk img = false ∨ ∃ e, genImg img = Except.error e) :
    buildResults fetchOk genImg (pre ++ img :: post) =
      buildResults fetchOk genImg (pre ++ post) ∧
    (getEntry (buildResults fetchOk genImg (pre ++ img :: post)) img.id = none →
      getEntry (applyFallback (pre ++ img :: post)
        (buildResults fetchOk genImg (pre ++ img :: post))) img.id =
        some defaultText) := by
  have hstep : ∀ acc, imageStep fetchOk genImg acc img = acc := by
    intro acc
    unfold imageStep
    rcases hfail with hf | ⟨e, he⟩
    · simp [hf]
    · cases hfo : fetchOk img with
      | false => simp [hfo]
      | true => simp [hfo, he]
  constructor
  · unfold buildResults
    rw [List.foldl_append, List.foldl_append, List.foldl_cons, hstep]
  · intro hnone
    exact fallback_default (pre ++ img :: post) _ img (by simp) hnone

/-- Witness for C7: generation fails for image 5 while image 9 is untouched
by that failure, and image 5 ends with the default text. -/
theorem image_failure_nonfatal_witness :
    buildResults fetchAllOk genImgFail [img5, img9] =
      buildResults fetchAllOk genImgFail [img9] ∧
    getEntry (applyFallback [img5, img9]
      (buildResults fetchAllOk genImgFail [img5, img9])) 5 = some defaultText := by
  have h := image_failure_nonfatal fetchAllOk genImgFail [] [img9] img5
    (Or.inr ⟨"Model error", rfl⟩)
  exact ⟨h.1, h.2 (by decide)⟩

/-- C8 counterexample: a run in which every step succeeds — payload fetched,
generation ok, document published — still ends with local scratch copies on
disk: the manifest database copy and the per-reference payload file are never
removed, refuting the claim that all scratch copies are removed
unconditionally at the end of a run. -/
theorem successful_run_leaks_scratch :
    (startProcess fetchAllOk genImgOk5 genLinkOk [img5] [figNode5]).modify.published.isSome = true ∧
    dbScratchFile ∈ (startProcess fetchAllOk genImgOk5 genLinkOk [img5] [figNode5]).scratchLeft ∧
    payloadFile img5 ∈ (startProcess fetchAllOk genImgOk5 genLinkOk [img5] [figNode5]).scratchLeft :=
  ⟨by decide, by decide, by decide⟩

/-- C8 amended: the downloaded source copy and the generated output copy are
removed only when `modifyPDF` reaches a successful upload; a run whose link
processing fails leaves the downloaded copy in `/tmp`; and the manifest
database copy (like the payload copies) stays on disk in every run. -/
theorem scratch_cleanup_only_on_success
    (fetchOk : ImageObject → Bool)
    (genImg : ImageObject → Except String (List (Nat × String)))
    (genLink : String → Except String String)
    (imgs : List ImageObject) (g : List PDFNode) :
    ((startProcess fetchOk genImg genLink imgs g).modify.published.isSome = true →
      (startProcess fetchOk genImg genLink imgs g).modify.scratchLeft = []) ∧
    ((startProcess fetchOk genImg genLink imgs g).modify.published = none →
      (startProcess fetchOk genImg genLink imgs g).modify.scratchLeft =
        [downloadScratchFile]) ∧
    dbScratchFile ∈ (startProcess fetchOk genImg genLink imgs g).scratchLeft := by
  simp only [startProcess, modifyPDF]
  cases hfail : (tagPass genLink g
      (applyFallback imgs (buildResults fetchOk genImg imgs))).2.2 with
  | true => simp [hfail]
  | false => simp [hfail]

/-- Witness for C8 amended: a failing link generation leaves the downloaded
copy behind, and the database copy is on disk as in every run. -/
theorem scratch_cleanup_only_on_success_witness :
    (startProcess fetchAllOk genImgOk5 genLinkFail [img5] [linkNode12]).modify.scratchLeft =
      [downloadScratchFile] ∧
    dbScratchFile ∈ (startProcess fetchAllOk genImgOk5 genLinkFail [img5] [linkNode12]).scratchLeft := by
  have h := scratch_cleanup_only_on_success fetchAllOk genImgOk5 genLinkFail
    [img5] [linkNode12]
  exact ⟨h.2.1 (by decide), h.2.2⟩

/-- C9 counterexample: a result-map entry whose id (42) matches no graph node
is silently ignored — the run still publishes the output, but no integrity
warning is emitted; the unmatched entry merely sits in the leftover map that
`modifyPDF` discards, refuting the claim that the condition is surfaced. -/
theorem unmatched_id_no_warning :
    (modifyPDF genLinkOk [(42, "desc")] [figNode7]).published.isSome = true ∧
    (modifyPDF genLinkOk [(42, "desc")] [figNode7]).warnings = [] ∧
    (modifyPDF genLinkOk [(42, "desc")] [figNode7]).leftover = [(42, "desc")] :=
  ⟨by decide, by decide, by decide⟩

/-- C9 amended: a manifest id with no matching graph node does not crash the
run — when no link generation fails the document is still published — but the
condition is not surfaced as a warning: the warning channel stays empty and
the unmatched entry survives untouched only inside the discarded leftover
map. -/
theorem unmatched_id_silent
    (gen : String → Except String String) (z : List (Nat × String))
    (g : List PDFNode) (kv : Nat × String) (hkv : kv ∈ z)
    (hun : ∀ n ∈ g, (kv.1 == n.objNum) = false)
    (hok : ∀ n ∈ g, linkFails gen n = false) :
    (modifyPDF gen z g).published.isSome = true ∧
    (modifyPDF gen z g).warnings = [] ∧
    kv ∈ (modifyPDF gen z g).leftover := by
  have hany : g.any (linkFails gen) = false := by
    cases hany : g.any (linkFails gen) with
    | false => rfl
    | true =>
      rcases List.any_eq_true.mp hany with ⟨n, hn, hf⟩
      rw [hok n hn] at hf
      exact absurd hf (by simp)
  have hfl : (tagPass gen g z).2.2 = false := by
    rw [tagPass_fail gen g z]
    exact hany
  unfold modifyPDF
  rw [hfl]
  simp only [Bool.false_eq_true, if_false]
  refine ⟨?_, ?_, ?_⟩
  · simp
  · simp
  · exact tagPass_keeps gen g z kv hkv hun

/-- Witness for C9 amended: entry 42 matches nothing, the run publishes, no
warning is raised, the entry survives in the discarded map. -/
theorem unmatched_id_silent_witness :
    (modifyPDF genLinkOk [(42, "photo")] [figNode5]).published.isSome = true ∧
    (modifyPDF genLinkOk [(42, "photo")] [figNode5]).warnings = [] ∧
    ((42 : Nat), "photo") ∈ (modifyPDF genLinkOk [(42, "photo")] [figNode5]).leftover :=
  unmatched_id_silent genLinkOk [(42, "photo")] [figNode5] (42, "photo")
    (by decide) (by decide) (by decide)

/-- C10: the result map is keyed by the ids the generation service returns in
its JSON response, not by the manifest ids — when the response for a
reference carries a key different from the reference's manifest id, the text
is stored under the response key and applied to whatever figure node has that
object number, while the reference's own id (absent from the map) receives
the fallback default text. -/
theorem results_keyed_by_response
    (fetchOk : ImageObject → Bool)
    (genImg : ImageObject → Except String (List (Nat × String)))
    (img : ImageObject) (k : Nat) (t : String) (n : PDFNode)
    (hf : fetchOk img = true) (hg : genImg img = Except.ok [(k, t)])
    (hk : (k == img.id) = false) (ht : (t == artifactSentinel) = false)
    (hfig : isFigure n = true) (ho : n.objNum = k) :
    applyFallback [img] (buildResults fetchOk genImg [img]) =
      [(k, t), (img.id, defaultText)] ∧
    (applyFigure [(k, t), (img.id, defaultText)] n).1.alt = some t ∧
    getEntry (applyFallback [img] (buildResults fetchOk genImg [img])) img.id =
      some defaultText := by
  have hbuild : buildResults fetchOk genImg [img] = [(k, t)] := by
    simp [buildResults, imageStep, hf, hg, assignAll, setEntry]
  have hfb : applyFallback [img] [(k, t)] = [(k, t), (img.id, defaultText)] := by
    simp [applyFallback, fallbackStep, getEntry, hk]
  have hnd : (([(k, t), (img.id, defaultText)] : List (Nat × String)).map
      Prod.fst).Nodup := by
    have hne : k ≠ img.id := by
      intro hkk
      rw [hkk] at hk
      simp at hk
    simp [List.nodup_cons, List.mem_singleton, hne]
  have hmem : (n.objNum, t) ∈ ([(k, t), (img.id, defaultText)] : List (Nat × String)) := by
    rw [ho]
    exact List.mem_cons_self _ _
  refine ⟨hbuild ▸ hfb, ?_, ?_⟩
  · rw [applyFigure_hit _ n t hnd hmem hfig]
    simp [ht]
  · rw [hbuild, hfb]
    unfold getEntry
    rw [hk]
    simp [getEntry]

/-- Witness for C10: the response for reference 5 carries key 7; the text is
stored under 7 and applied to figure node 7, while id 5 gets the default. -/
theorem results_keyed_by_response_witness :
    applyFallback [img5] (buildResults fetchAllOk genImgKey7 [img5]) =
      [(7, "A campus photograph"), (5, defaultText)] ∧
    (applyFigure [(7, "A campus photograph"), (5, defaultText)] figNode7).1.alt =
      some "A campus photograph" ∧
    getEntry (applyFallback [img5] (buildResults fetchAllOk genImgKey7 [img5])) 5 =
      some defaultText :=
  results_keyed_by_response fetchAllOk genImgKey7 img5 7 "A campus photograph"
    figNode7 rfl rfl (by decide) (by decide) (by decide) (by decide)
